import Mathlib

/-!
Verification of the REST-API translation layer of the prysm beacon node
excerpt (files `beacon-chain/rpc/eth/beacon/handlers.go`,
`beacon-chain/rpc/eth/beacon/structs_conversions.go`,
`beacon-chain/rpc/eth/beacon/api_structs.go` and the completed handler file
containing `produceBlockV3`).  The Go code is embedded shallowly: pure
conversion helpers become Lean functions over `Nat`-valued bytes and
`String`s, and the HTTP handlers become pure functions from an explicit
environment of collaborator results (decode oracles, state fetcher, state
transition, fork-choice store, optimistic-status fetcher) to a response
value plus a trace of which collaborators were invoked.
-/

namespace Prysm

/-! ## Byte-level codecs

Bytes are modelled as `Nat` values; every byte produced by the decoders
below is `< 256` by construction. -/

/-- Value of a hex digit character, `16` for non-hex characters. -/
def hexVal (c : Char) : Nat :=
  if '0' ≤ c ∧ c ≤ '9' then c.toNat - '0'.toNat
  else if 'a' ≤ c ∧ c ≤ 'f' then c.toNat - 'a'.toNat + 10
  else if 'A' ≤ c ∧ c ≤ 'F' then c.toNat - 'A'.toNat + 10
  else 16

/-- Whether a character is a hexadecimal digit. -/
def isHexDigitChar (c : Char) : Bool := hexVal c < 16

/-- Lowercase hex digit for a value `< 16` (as produced by Go's `hex.EncodeToString`). -/
def hexDigitChar (n : Nat) : Char :=
  if n < 10 then Char.ofNat ('0'.toNat + n) else Char.ofNat ('a'.toNat + (n - 10))

/-- Two lowercase hex digits of one byte. -/
def byteToHexChars (b : Nat) : List Char := [hexDigitChar (b / 16), hexDigitChar (b % 16)]

/-- Decode a list of hex-digit characters pairwise into bytes; `none` when the
list has odd length or holds a non-hex character (Go `hex.DecodeString`). -/
def hexPairsToBytes : List Char → Option (List Nat)
  | [] => some []
  | [_] => none
  | c1 :: c2 :: rest =>
    if isHexDigitChar c1 ∧ isHexDigitChar c2 then
      (hexPairsToBytes rest).map (fun bs => (hexVal c1 * 16 + hexVal c2) :: bs)
    else none

/-- go-ethereum `hexutil.Decode`: requires a nonempty `0x`-prefixed string of an
even number of hex digits and yields its bytes (external library used by the
source; the error strings follow go-ethereum's errors). -/
def hexutilDecode (s : String) : Except String (List Nat) :=
  match s.data with
  | [] => .error "empty hex string"
  | '0' :: 'x' :: rest =>
    match hexPairsToBytes rest with
    | some bs => .ok bs
    | none =>
      if rest.length % 2 = 1 then .error "hex string of odd length"
      else .error "invalid hex string"
  | _ => .error "hex string without 0x prefix"

/-- go-ethereum `hexutil.Encode`: `0x` followed by two lowercase hex digits per
byte (external library used by the source). -/
def hexutilEncode (bs : List Nat) : String :=
  "0x" ++ String.mk (bs.map byteToHexChars).flatten

/-- Go `strconv.ParseUint(s, 10, 64)`: a nonempty all-digit string whose value
fits in 64 bits; no sign characters are accepted. -/
def parseUint64 (s : String) : Except String Nat :=
  if s.data ≠ [] ∧ s.data.all (fun c => '0' ≤ c ∧ c ≤ '9') then
    let v := s.data.foldl (fun acc c => acc * 10 + (c.toNat - '0'.toNat)) 0
    if v < 2 ^ 64 then .ok v else .error "value out of range"
  else .error "invalid syntax"

/-- Go `new(big.Int).SetString(s, 10)`: an optional leading `+` or `-` sign
followed by a nonempty run of decimal digits; underscores and prefixes are
rejected at base 10.  Returns the signed integer value. -/
def bigIntSetString10 (s : String) : Option Int :=
  let digitsVal : List Char → Option Nat := fun ds =>
    if ds ≠ [] ∧ ds.all (fun c => '0' ≤ c ∧ c ≤ '9') then
      some (ds.foldl (fun acc c => acc * 10 + (c.toNat - '0'.toNat)) 0)
    else none
  match s.data with
  | '+' :: rest => (digitsVal rest).map (fun v => (v : Int))
  | '-' :: rest => (digitsVal rest).map (fun v => -(v : Int))
  | ds => (digitsVal ds).map (fun v => (v : Int))

/-- Fuel-driven big-endian byte expansion; the fuel only bounds the recursion
depth, and `n` itself is always enough fuel. -/
def bytesBEAux : Nat → Nat → List Nat
  | 0, _ => []
  | fuel + 1, n => if n = 0 then [] else bytesBEAux fuel (n / 256) ++ [n % 256]

/-- Go `big.Int.Bytes()`: minimal big-endian bytes of the absolute value; the
empty list for zero. -/
def bigIntBytes (n : Nat) : List Nat := bytesBEAux n n

/-- Modelled from the spec: `bytesutil2.PadTo` (prysm `encoding/bytesutil`, a
repository package not under src/) realises the spec's "padded to 32 bytes"
step; it appends zero bytes up to the requested size and returns the input
unchanged when the input is already longer. -/
def PadTo (b : List Nat) (size : Nat) : List Nat :=
  if size < b.length then b else b ++ List.replicate (size - b.length) 0

/-- Modelled from the spec: `bytesutil2.ReverseByteOrder` (prysm
`encoding/bytesutil`, a repository package not under src/) realises the
spec's "big-endian-to-little-endian byte reversal"; it reverses the bytes. -/
def ReverseByteOrder (input : List Nat) : List Nat := input.reverse

/-- `uint256ToHex` from `structs_conversions.go`: parse the decimal string with
`big.Int.SetString(num, 10)`, take the big-endian bytes of the result, fail
when more than 32 bytes, and return `ReverseByteOrder(PadTo(bigEndian, 32))`. -/
def uint256ToHex (num : String) : Except String (List Nat) :=
  match bigIntSetString10 num with
  | none => .error "could not parse Uint256"
  | some uint256 =>
    let bigEndian := bigIntBytes uint256.natAbs
    if 32 < bigEndian.length then .error "number too big for Uint256"
    else .ok (ReverseByteOrder (PadTo bigEndian 32))

/-- The 32-byte little-endian encoding of a value: the minimal big-endian
bytes left-padded to 32 bytes and then reversed.  This is the encoding the
claim attributes to `uint256ToHex` (stated from the spec's words, for
comparison with the source function). -/
def littleEndian32 (n : Nat) : List Nat :=
  (List.replicate (32 - (bigIntBytes n).length) 0 ++ bigIntBytes n).reverse

/-- Decidable equality for `Except`, used to evaluate closed statements about
the fallible conversion functions. -/
instance {ε α : Type} [DecidableEq ε] [DecidableEq α] : DecidableEq (Except ε α) := by
  intro a b
  cases a <;> cases b
  case error.error e1 e2 =>
    exact if h : e1 = e2 then .isTrue (by rw [h]) else .isFalse (by simp [h])
  case error.ok e1 a2 => exact .isFalse (by simp)
  case ok.error a1 e2 => exact .isFalse (by simp)
  case ok.ok a1 a2 =>
    exact if h : a1 = a2 then .isTrue (by rw [h]) else .isFalse (by simp [h])

/-! ## The fork enumeration and the generic signed-block union

`GenericSignedBeaconBlock` (`eth.GenericSignedBeaconBlock` in the source) is
the tagged union the dispatcher produces; its per-fork payload is abstracted
to a `Nat`, with the fork tag and blinded flag tracked explicitly. -/

/-- The ordered fork enumeration of the data model. -/
inductive Fork where
  | phase0
  | altair
  | bellatrix
  | capella
  | deneb
deriving DecidableEq, Repr

/-- The tagged union `eth.GenericSignedBeaconBlock`: a fork tag, whether the
variant is a blinded one, and an abstract internal payload. -/
structure GenericSignedBeaconBlock where
  fork : Fork
  blinded : Bool
  payload : Nat
deriving DecidableEq, Repr

/-- The fixed order in which both the SSZ and the JSON publish handlers try
the fork schemas: Deneb, Capella, Bellatrix, Altair, Phase0. -/
def publishTryOrder : List Fork := [.deneb, .capella, .bellatrix, .altair, .phase0]

/-- In `publishBlindedBlockV2`/`publishBlindedBlockV2SSZ` the Deneb, Capella
and Bellatrix schemas are the blinded variants, while Altair and Phase0 are
full blocks (blinding does not exist before Bellatrix). -/
def blindedVariant : Fork → Bool
  | .deneb => true
  | .capella => true
  | .bellatrix => true
  | .altair => false
  | .phase0 => false

/-! ## Broadcast validation gate (`validateBroadcast` and helpers) -/

/-- Result of `blocks.NewSignedBeaconBlock`: a read-only signed block exposing
the slot and the declared parent root used by the validation gate. -/
structure SignedROBlock where
  slot : Nat
  parentRoot : Nat
deriving DecidableEq, Repr

/-- Which collaborators the broadcast-validation gate invoked: the parent
state fetcher `Stater.State`, the state-transition function
`transition.ExecuteStateTransition`, and the fork-choice store query
`ForkchoiceFetcher.HighestReceivedBlockSlot`. -/
structure CollabTrace where
  staterCalled : Bool
  transitionCalled : Bool
  forkchoiceCalled : Bool
deriving DecidableEq, Repr

/-- Trace with no collaborator invoked. -/
def noCalls : CollabTrace := ⟨false, false, false⟩

/-- Environment of collaborator results consumed by `validateBroadcast`:
the outcome of `blocks.NewSignedBeaconBlock` on the generic block, the parent
state fetched per root, the state-transition outcome, and the fork-choice
store's highest received block slot. -/
structure BroadcastEnv where
  newSignedBeaconBlock : GenericSignedBeaconBlock → Except String SignedROBlock
  state : Nat → Except String Nat
  executeStateTransition : Nat → SignedROBlock → Except String Nat
  highestReceivedBlockSlot : Nat

/-- The query-parameter name and values of the broadcast-validation policy. -/
def broadcastValidationConsensus : String := "consensus"

/-- Value selecting the consensus-plus-equivocation policy. -/
def broadcastValidationConsensusAndEquivocation : String := "consensus_and_equivocation"

/-- `Server.validateConsensus`: fetch the parent state for the block's parent
root (wrapping a failure as "could not get parent state"), then run the state
transition (wrapping a failure as "could not execute state transition"). -/
def validateConsensus (env : BroadcastEnv) (blk : SignedROBlock) :
    Except String Unit × CollabTrace :=
  match env.state blk.parentRoot with
  | .error e => (.error ("could not get parent state: " ++ e), ⟨true, false, false⟩)
  | .ok parentState =>
    match env.executeStateTransition parentState blk with
    | .error e => (.error ("could not execute state transition: " ++ e), ⟨true, true, false⟩)
    | .ok _ => (.ok (), ⟨true, true, false⟩)

/-- `Server.validateEquivocation`: fail exactly when the fork-choice store's
highest received block slot equals the block's slot. -/
def validateEquivocation (env : BroadcastEnv) (blk : SignedROBlock) : Except String Unit :=
  if env.highestReceivedBlockSlot = blk.slot then
    .error ("block for slot " ++ toString blk.slot ++ " already exists in fork choice")
  else .ok ()

/-- `Server.validateBroadcast`: switch on the `broadcast_validation` query
parameter; `consensus` builds the signed block and runs the consensus check,
`consensus_and_equivocation` additionally runs the equivocation check after
it, and any other value (the default case) does nothing.  Returns the error
(with the source's `errors.Wrap` message prefixes) together with the trace of
invoked collaborators. -/
def validateBroadcast (env : BroadcastEnv) (q : String) (blk : GenericSignedBeaconBlock) :
    Except String Unit × CollabTrace :=
  if q = broadcastValidationConsensus then
    match env.newSignedBeaconBlock blk with
    | .error e => (.error ("could not create signed beacon block: " ++ e), noCalls)
    | .ok b =>
      match validateConsensus env b with
      | (.error e, t) => (.error ("consensus validation failed: " ++ e), t)
      | (.ok _, t) => (.ok (), t)
  else if q = broadcastValidationConsensusAndEquivocation then
    match env.newSignedBeaconBlock blk with
    | .error e => (.error ("could not create signed beacon block: " ++ e), noCalls)
    | .ok b =>
      match validateConsensus env b with
      | (.error e, t) => (.error ("consensus validation failed: " ++ e), t)
      | (.ok _, t) =>
        match validateEquivocation env b with
        | .error e =>
          (.error ("equivocation validation failed: " ++ e),
           { t with forkchoiceCalled := true })
        | .ok _ => (.ok (), { t with forkchoiceCalled := true })
  else (.ok (), noCalls)

/-! ## Publish handlers (`publishBlockV2`, `publishBlockV2SSZ` and the
blinded variants)

The handlers are modelled as functions of the request's decode oracles (the
result of attempting to decode the one request body against each fork's
schema) producing a `PublishResult` and the list of forks whose schema was
attempted, in order. -/

/-- Outcome of a publish handler: either the generic block was handed to the
propose RPC (`ProposeBeaconBlock`), or an error response was written and the
propose RPC was never called. -/
inductive PublishResult where
  | proposed (blk : GenericSignedBeaconBlock)
  | rejected (msg : String) (code : Nat)
deriving DecidableEq, Repr

/-- The error message of the final rejection when no fork schema matched. -/
def invalidBlockMsg : String := "Body does not represent a valid block type"

/-- Tail of every per-fork branch of the publish handlers: run
`validateBroadcast`; on error write a 400 with the error's message, otherwise
hand the block to the propose RPC. -/
def publishStep (benv : BroadcastEnv) (q : String) (blk : GenericSignedBeaconBlock) :
    PublishResult :=
  match (validateBroadcast benv q blk).1 with
  | .error e => .rejected e 400
  | .ok _ => .proposed blk

/-- Decode oracles of one SSZ request body: for each fork schema the result of
`UnmarshalSSZ` on the body, and the per-fork migration
(`migration.XToV1Alpha1...`) of a decoded value into the internal block. -/
structure SszEnv where
  unmarshal : Fork → Option Nat
  migrate : Fork → Nat → Except String Nat

/-- Body of one successful-decode branch of the SSZ publish handlers: migrate
the decoded value (a failure is a 400 "Could not decode request body into
consensus block"), wrap it into the generic union with the branch's tag, and
run the broadcast gate before proposing. -/
def sszStep (env : SszEnv) (benv : BroadcastEnv) (q : String) (f : Fork) (bflag : Bool)
    (v : Nat) : PublishResult :=
  match env.migrate f v with
  | .error e => .rejected ("Could not decode request body into consensus block: " ++ e) 400
  | .ok m => publishStep benv q ⟨f, bflag, m⟩

/-- The try-each-schema chain of `publishBlockV2SSZ` and
`publishBlindedBlockV2SSZ`, one recursive function over the significant fork
order: the first fork whose `UnmarshalSSZ` succeeds is handled by `sszStep`
and ends the chain; when every decode fails the handler writes the 400
"Body does not represent a valid block type" response.  Also returns the
forks whose schema was attempted, in order. -/
def sszTry (env : SszEnv) (benv : BroadcastEnv) (q : String) (bflag : Fork → Bool) :
    List Fork → PublishResult × List Fork
  | [] => (.rejected invalidBlockMsg 400, [])
  | f :: rest =>
    match env.unmarshal f with
    | some v => (sszStep env benv q f (bflag f) v, [f])
    | none =>
      let r := sszTry env benv q bflag rest
      (r.1, f :: r.2)

/-- `publishBlockV2SSZ`: try the full-block SSZ schemas in the order Deneb,
Capella, Bellatrix, Altair, Phase0. -/
def publishBlockV2SSZ (env : SszEnv) (benv : BroadcastEnv) (q : String) :
    PublishResult × List Fork :=
  sszTry env benv q (fun _ => false) publishTryOrder

/-- `publishBlindedBlockV2SSZ`: try the blinded Deneb, Capella and Bellatrix
schemas and then the full Altair and Phase0 schemas, in the same order. -/
def publishBlindedBlockV2SSZ (env : SszEnv) (benv : BroadcastEnv) (q : String) :
    PublishResult × List Fork :=
  sszTry env benv q blindedVariant publishTryOrder

/-- First fork in the SSZ try order whose schema decodes the body. -/
def firstSszMatch (env : SszEnv) : Option Fork :=
  publishTryOrder.find? (fun f => (env.unmarshal f).isSome)

/-- Decode oracles of one JSON request body: for each fork schema the result
of the strict JSON decode (`unmarshalStrict`, unknown fields rejected), the
verdict of the struct-level validator (`validate.Struct`), and the per-field
conversion `ToGeneric` into the internal block. -/
structure JsonEnv where
  unmarshalStrict : Fork → Option Nat
  validateStruct : Fork → Nat → Bool
  toGeneric : Fork → Nat → Except String Nat

/-- Body of one parsed-and-validated branch of the JSON publish handlers:
convert with `ToGeneric` (a failure is an immediate 400 "Could not decode
request body into consensus block"), then run the broadcast gate before
proposing. -/
def jsonStep (env : JsonEnv) (benv : BroadcastEnv) (q : String) (f : Fork) (bflag : Bool)
    (v : Nat) : PublishResult :=
  match env.toGeneric f v with
  | .error e => .rejected ("Could not decode request body into consensus block: " ++ e) 400
  | .ok m => publishStep benv q ⟨f, bflag, m⟩

/-- The try-each-schema chain of `publishBlockV2` and
`publishBlindedBlockV2`: a fork is handled (terminally, by `jsonStep`) only
when the strict decode succeeds and the struct validator passes; a failure of
either gate falls through to the next fork, and when every fork fails the
handler writes the 400 "Body does not represent a valid block type" response.
Also returns the forks whose schema was attempted, in order. -/
def jsonTry (env : JsonEnv) (benv : BroadcastEnv) (q : String) (bflag : Fork → Bool) :
    List Fork → PublishResult × List Fork
  | [] => (.rejected invalidBlockMsg 400, [])
  | f :: rest =>
    match env.unmarshalStrict f with
    | some v =>
      if env.validateStruct f v then (jsonStep env benv q f (bflag f) v, [f])
      else
        let r := jsonTry env benv q bflag rest
        (r.1, f :: r.2)
    | none =>
      let r := jsonTry env benv q bflag rest
      (r.1, f :: r.2)

/-- `publishBlockV2` (JSON path): try the full-block JSON schemas in the order
Deneb, Capella, Bellatrix, Altair, Phase0, each behind the double gate. -/
def publishBlockV2 (env : JsonEnv) (benv : BroadcastEnv) (q : String) :
    PublishResult × List Fork :=
  jsonTry env benv q (fun _ => false) publishTryOrder

/-- `publishBlindedBlockV2` (JSON path): the blinded Deneb, Capella and
Bellatrix schemas followed by the full Altair and Phase0 schemas. -/
def publishBlindedBlockV2 (env : JsonEnv) (benv : BroadcastEnv) (q : String) :
    PublishResult × List Fork :=
  jsonTry env benv q blindedVariant publishTryOrder

/-- Whether a fork schema counts as a JSON match: the strict decode succeeds
and the decoded struct passes the validator. -/
def jsonMatch (env : JsonEnv) (f : Fork) : Bool :=
  match env.unmarshalStrict f with
  | some v => env.validateStruct f v
  | none => false

/-- First fork in the JSON try order that passes both gates. -/
def firstJsonMatch (env : JsonEnv) : Option Fork :=
  publishTryOrder.find? (jsonMatch env)

/-! ## Block production (`produceBlockV3`)

Model of the completed `produceBlockV3` handler: the `GetBeaconBlock` RPC
returns one variant of the `eth.GenericBeaconBlock` union together with its
`IsBlinded` flag and `PayloadValue`; the handler checks the Phase0 and Altair
variants, then the optimistic guard, then the Bellatrix-and-later variants,
setting the two response headers on the matching branch. -/

/-- The `eth.GenericBeaconBlock` union variants returned by `GetBeaconBlock`,
each carrying an abstract internal block value. -/
inductive ProducedBlock where
  | phase0 (v : Nat)
  | altair (v : Nat)
  | blindedBellatrix (v : Nat)
  | bellatrix (v : Nat)
  | blindedCapella (v : Nat)
  | capella (v : Nat)
  | blindedDeneb (v : Nat)
  | deneb (v : Nat)
deriving DecidableEq, Repr

/-- Whether the produced variant is one the handler checks before the
optimistic guard (the Phase0 and Altair branches precede it). -/
def isPreBellatrix : ProducedBlock → Bool
  | .phase0 _ => true
  | .altair _ => true
  | _ => false

/-- Constants of one variant's response branch: the version string written in
the JSON body, the JSON body's `ExecutionPayloadBlinded` value, and the file
name of the SSZ response, all read off the source's branches (including the
full-Deneb branch's `ExecutionPayloadBlinded: true`). -/
structure BranchCfg where
  versionStr : String
  blindedFlag : Bool
  sszName : String
deriving DecidableEq, Repr

/-- The per-variant response constants, exactly as in the source branches. -/
def branchCfg : ProducedBlock → BranchCfg
  | .phase0 _ => ⟨"phase0", false, "phase0Block.ssz"⟩
  | .altair _ => ⟨"altair", false, "altairBlock.ssz"⟩
  | .blindedBellatrix _ => ⟨"bellatrix", true, "blindeBellatrixBlock.ssz"⟩
  | .bellatrix _ => ⟨"bellatrix", false, "bellatrixBlock.ssz"⟩
  | .blindedCapella _ => ⟨"capella", true, "blindedCapellaBlock.ssz"⟩
  | .capella _ => ⟨"capella", false, "capellaBlock.ssz"⟩
  | .blindedDeneb _ => ⟨"deneb", true, "blindedDenebBlockContents.ssz"⟩
  | .deneb _ => ⟨"deneb", true, "denebBlockContents.ssz"⟩

/-- Environment of collaborator results consumed by `produceBlockV3`: the
`GetBeaconBlock` RPC result (block variant, `IsBlinded` flag, `PayloadValue`),
whether the response was negotiated as SSZ, the `IsOptimistic` query result,
and the per-variant `MarshalSSZ`, `convertInternal...` and `validate.Struct`
outcomes. -/
structure ProduceEnv where
  getBeaconBlock : Except String (ProducedBlock × Bool × Nat)
  isSSZ : Bool
  isOptimistic : Except String Bool
  marshalSSZ : ProducedBlock → Except String (List Nat)
  convert : ProducedBlock → Except String Nat
  validateStruct : Nat → Bool

/-- The version-tagged JSON body written by a successful JSON branch of
`produceBlockV3` (one of the `...ProduceBlockV3Response` structs). -/
structure ProduceBlockV3Response where
  version : String
  executionPayloadBlinded : Bool
  executionPayloadValue : String
  data : Nat
deriving DecidableEq, Repr

/-- What `produceBlockV3` wrote: a JSON body, an SSZ body, an error response,
or nothing at all (the handler can fall off its end without writing). -/
inductive ProduceOutcome where
  | jsonResp (r : ProduceBlockV3Response)
  | sszResp (bytes : List Nat) (fileName : String)
  | errorResp (msg : String) (code : Nat)
  | noResp
deriving DecidableEq, Repr

/-- Full observable result of `produceBlockV3`: the written response, the two
response headers when a branch set them (the `Eth-Execution-Payload-Blinded`
header from `IsBlinded` and the value header from `PayloadValue`), and
whether the optimistic-status collaborator was queried. -/
structure ProduceResult where
  outcome : ProduceOutcome
  headers : Option (Bool × Nat)
  optimisticQueried : Bool
deriving DecidableEq, Repr

/-- One matching branch of `produceBlockV3` after its headers are set: in SSZ
mode marshal the internal block (error 500) and write the SSZ body; in JSON
mode convert it (error 500) and, when the struct validator passes, write the
version-tagged JSON body with the branch's constants; a JSON validation
failure writes nothing and falls through (`none`). -/
def runBranch (env : ProduceEnv) (blk : ProducedBlock) (pv : Nat) : Option ProduceOutcome :=
  let cfg := branchCfg blk
  if env.isSSZ then
    match env.marshalSSZ blk with
    | .error e => some (.errorResp e 500)
    | .ok bs => some (.sszResp bs cfg.sszName)
  else
    match env.convert blk with
    | .error e => some (.errorResp e 500)
    | .ok w =>
      if env.validateStruct w then
        some (.jsonResp ⟨cfg.versionStr, cfg.blindedFlag, toString pv, w⟩)
      else none

/-- The part of `produceBlockV3` from the optimistic guard on: query
`IsOptimistic` (an error is a 500, `true` is the 503 "currently optimistic"
rejection); afterwards a Bellatrix-or-later variant sets its headers and runs
its branch, while a fallen-through Phase0/Altair request matches no further
branch and writes nothing. -/
def afterOptimisticGuard (env : ProduceEnv) (blk : ProducedBlock) (ib : Bool) (pv : Nat)
    (hdrs0 : Option (Bool × Nat)) : ProduceResult :=
  match env.isOptimistic with
  | .error e =>
    ⟨.errorResp ("Could not determine if the node is a optimistic node: " ++ e) 500, hdrs0, true⟩
  | .ok true =>
    ⟨.errorResp "The node is currently optimistic and cannot serve validators" 503, hdrs0, true⟩
  | .ok false =>
    if isPreBellatrix blk then ⟨.noResp, hdrs0, true⟩
    else
      match runBranch env blk pv with
      | some out => ⟨out, some (ib, pv), true⟩
      | none => ⟨.noResp, some (ib, pv), true⟩

/-- `produceBlockV3` (the inner handler of the completed source file): call
`GetBeaconBlock` (error 500); a Phase0 or Altair variant sets its headers and
runs its branch before the optimistic guard, returning without ever querying
the optimistic status when the branch writes a response; every other variant
reaches the optimistic guard first. -/
def produceBlockV3 (env : ProduceEnv) : ProduceResult :=
  match env.getBeaconBlock with
  | .error e => ⟨.errorResp e 500, none, false⟩
  | .ok (blk, ib, pv) =>
    if isPreBellatrix blk then
      match runBranch env blk pv with
      | some out => ⟨out, some (ib, pv), false⟩
      | none => afterOptimisticGuard env blk ib pv (some (ib, pv))
    else afterOptimisticGuard env blk ib pv none

/-! ## The wire/internal execution payload and its two conversion directions

The `ExecutionPayload` sub-structure of the Bellatrix block schema, whose
fields the claims about `uint256ToHex` and the round-trip law cite.  The wire
struct is the `ExecutionPayload` of `api_structs.go` (all strings); the
internal struct is `enginev1.ExecutionPayload` (raw bytes and `uint64`s). -/

/-- Wire execution payload: decimal-string integers and `0x`-hex byte
fields. -/
structure ExecutionPayload where
  parentHash : String
  feeRecipient : String
  stateRoot : String
  receiptsRoot : String
  logsBloom : String
  prevRandao : String
  blockNumber : String
  gasLimit : String
  gasUsed : String
  timestamp : String
  extraData : String
  baseFeePerGas : String
  blockHash : String
  transactions : List String
deriving DecidableEq, Repr

/-- Internal execution payload (`enginev1.ExecutionPayload`): raw byte fields
and native integers. -/
structure InternalExecutionPayload where
  parentHash : List Nat
  feeRecipient : List Nat
  stateRoot : List Nat
  receiptsRoot : List Nat
  logsBloom : List Nat
  prevRandao : List Nat
  blockNumber : Nat
  gasLimit : Nat
  gasUsed : Nat
  timestamp : Nat
  extraData : List Nat
  baseFeePerGas : List Nat
  blockHash : List Nat
  transactions : List (List Nat)
deriving DecidableEq, Repr

/-- Prefix an error with the failing field path, as `errors.Wrap` does in the
source. -/
def wrapErr {α : Type} (msg : String) : Except String α → Except String α
  | .error e => .error (msg ++ ": " ++ e)
  | .ok a => .ok a

/-- Decode every transaction hex string, wrapping a failure with its index,
as the loop in `SignedBeaconBlockBellatrix.ToGeneric` does. -/
def decodeTxs (i : Nat) : List String → Except String (List (List Nat))
  | [] => .ok []
  | tx :: rest => do
    let b ← wrapErr ("could not decode b.Message.Body.ExecutionPayload.Transactions[" ++ toString i ++ "]") (hexutilDecode tx)
    let bs ← decodeTxs (i + 1) rest
    .ok (b :: bs)

/-- The execution-payload portion of `SignedBeaconBlockBellatrix.ToGeneric`
(wire to internal): `hexutil.Decode` on every hex field,
`strconv.ParseUint(_, 10, 64)` on every decimal field, and `uint256ToHex` on
`BaseFeePerGas`, each failure wrapped with its field path. -/
def toGenericExecutionPayload (p : ExecutionPayload) : Except String InternalExecutionPayload := do
  let payloadParentHash ← wrapErr "could not decode b.Message.Body.ExecutionPayload.ParentHash" (hexutilDecode p.parentHash)
  let payloadFeeRecipient ← wrapErr "could not decode b.Message.Body.ExecutionPayload.FeeRecipient" (hexutilDecode p.feeRecipient)
  let payloadStateRoot ← wrapErr "could not decode b.Message.Body.ExecutionPayload.StateRoot" (hexutilDecode p.stateRoot)
  let payloadReceiptsRoot ← wrapErr "could not decode b.Message.Body.ExecutionPayload.ReceiptsRoot" (hexutilDecode p.receiptsRoot)
  let payloadLogsBloom ← wrapErr "could not decode b.Message.Body.ExecutionPayload.LogsBloom" (hexutilDecode p.logsBloom)
  let payloadPrevRandao ← wrapErr "could not decode b.Message.Body.ExecutionPayload.PrevRandao" (hexutilDecode p.prevRandao)
  let payloadBlockNumber ← wrapErr "could not decode b.Message.Body.ExecutionPayload.BlockNumber" (parseUint64 p.blockNumber)
  let payloadGasLimit ← wrapErr "could not decode b.Message.Body.ExecutionPayload.GasLimit" (parseUint64 p.gasLimit)
  let payloadGasUsed ← wrapErr "could not decode b.Message.Body.ExecutionPayload.GasUsed" (parseUint64 p.gasUsed)
  let payloadTimestamp ← wrapErr "could not decode b.Message.Body.ExecutionPayload.Timestamp" (parseUint64 p.timestamp)
  let payloadExtraData ← wrapErr "could not decode b.Message.Body.ExecutionPayload.ExtraData" (hexutilDecode p.extraData)
  let payloadBaseFeePerGas ← wrapErr "could not decode b.Message.Body.ExecutionPayload.BaseFeePerGas" (uint256ToHex p.baseFeePerGas)
  let payloadBlockHash ← wrapErr "could not decode b.Message.Body.ExecutionPayload.BlockHash" (hexutilDecode p.blockHash)
  let payloadTxs ← decodeTxs 0 p.transactions
  .ok
    { parentHash := payloadParentHash
      feeRecipient := payloadFeeRecipient
      stateRoot := payloadStateRoot
      receiptsRoot := payloadReceiptsRoot
      logsBloom := payloadLogsBloom
      prevRandao := payloadPrevRandao
      blockNumber := payloadBlockNumber
      gasLimit := payloadGasLimit
      gasUsed := payloadGasUsed
      timestamp := payloadTimestamp
      extraData := payloadExtraData
      baseFeePerGas := payloadBaseFeePerGas
      blockHash := payloadBlockHash
      transactions := payloadTxs }

/-- The execution-payload portion of `convertInternalBeaconBlockBellatrix`
(internal to wire): `hexutil.Encode` on every byte field — including
`BaseFeePerGas` — and `fmt.Sprintf("%d", _)` on every integer field. -/
def convertInternalExecutionPayload (p : InternalExecutionPayload) : ExecutionPayload :=
  { parentHash := hexutilEncode p.parentHash
    feeRecipient := hexutilEncode p.feeRecipient
    stateRoot := hexutilEncode p.stateRoot
    receiptsRoot := hexutilEncode p.receiptsRoot
    logsBloom := hexutilEncode p.logsBloom
    prevRandao := hexutilEncode p.prevRandao
    blockNumber := toString p.blockNumber
    gasLimit := toString p.gasLimit
    gasUsed := toString p.gasUsed
    timestamp := toString p.timestamp
    extraData := hexutilEncode p.extraData
    baseFeePerGas := hexutilEncode p.baseFeePerGas
    blockHash := hexutilEncode p.blockHash
    transactions := p.transactions.map hexutilEncode }

/-! ## Concrete inputs used by the counterexamples and witnesses -/

/-- A valid Bellatrix wire execution payload whose `BaseFeePerGas` is the
decimal string "1"; every other field round-trips unchanged. -/
def cWirePayload : ExecutionPayload :=
  { parentHash := "0x00"
    feeRecipient := "0x00"
    stateRoot := "0x00"
    receiptsRoot := "0x00"
    logsBloom := "0x00"
    prevRandao := "0x00"
    blockNumber := "0"
    gasLimit := "0"
    gasUsed := "0"
    timestamp := "0"
    extraData := "0x"
    baseFeePerGas := "1"
    blockHash := "0x00"
    transactions := [] }

/-- The internal payload the wire-to-internal direction produces from
`cWirePayload`. -/
def cInternalPayload : InternalExecutionPayload :=
  { parentHash := [0]
    feeRecipient := [0]
    stateRoot := [0]
    receiptsRoot := [0]
    logsBloom := [0]
    prevRandao := [0]
    blockNumber := 0
    gasLimit := 0
    gasUsed := 0
    timestamp := 0
    extraData := []
    baseFeePerGas := List.replicate 31 0 ++ [1]
    blockHash := [0]
    transactions := [] }

/-- A broadcast environment whose collaborators all succeed and whose
fork-choice highest received slot (4) differs from the block's slot (3). -/
def wBenvOk : BroadcastEnv :=
  ⟨fun _ => .ok ⟨3, 10⟩, fun _ => .ok 0, fun _ _ => .ok 0, 4⟩

/-- A broadcast environment whose fork-choice highest received slot equals the
block's slot (both 3). -/
def wBenvEq : BroadcastEnv :=
  ⟨fun _ => .ok ⟨3, 10⟩, fun _ => .ok 0, fun _ _ => .ok 0, 3⟩

/-- A broadcast environment whose parent-state fetch fails. -/
def wBenvStateErr : BroadcastEnv :=
  ⟨fun _ => .ok ⟨3, 10⟩, fun _ => .error "no state", fun _ _ => .ok 0, 4⟩

/-- A broadcast environment whose state transition fails. -/
def wBenvTransErr : BroadcastEnv :=
  ⟨fun _ => .ok ⟨3, 10⟩, fun _ => .ok 0, fun _ _ => .error "bad block", 4⟩

/-- An SSZ request body no fork schema decodes. -/
def wSszEnvNone : SszEnv := ⟨fun _ => none, fun _ _ => .error "x"⟩

/-- An SSZ request body only the Capella schema decodes, with a successful
migration. -/
def wSszEnvCap : SszEnv :=
  ⟨fun f => if f = .capella then some 5 else none, fun _ v => .ok (v + 1)⟩

/-- A JSON request body no fork schema matches. -/
def wJsonEnvNone : JsonEnv := ⟨fun _ => none, fun _ _ => false, fun _ _ => .error "x"⟩

/-- A JSON request body the Deneb schema strict-decodes but fails to validate,
and the Capella schema both strict-decodes and validates. -/
def wJsonEnvCap : JsonEnv :=
  ⟨fun f => if f = .deneb then some 1 else if f = .capella then some 5 else none,
   fun f _ => match f with | .capella => true | _ => false,
   fun _ v => .ok (v + 1)⟩

/-- The JSON body of `wJsonEnvCap` with a failing `ToGeneric` conversion. -/
def wJsonEnvErr : JsonEnv :=
  ⟨fun f => if f = .deneb then some 1 else if f = .capella then some 5 else none,
   fun f _ => match f with | .capella => true | _ => false,
   fun _ _ => .error "bad field"⟩

/-- A production environment returning a full Bellatrix block while the node
reports itself optimistic. -/
def wProdEnvBell : ProduceEnv :=
  ⟨.ok (.bellatrix 3, false, 7), false, .ok true, fun _ => .ok [], fun _ => .ok 8, fun _ => true⟩

/-- A production environment returning a Phase0 block whose JSON conversion
and validation succeed, with a failing optimistic-status collaborator (which
must never be reached). -/
def wProdEnvPhase0 : ProduceEnv :=
  ⟨.ok (.phase0 2, false, 7), false, .error "boom", fun _ => .ok [], fun _ => .ok 8, fun _ => true⟩

/-- A production environment returning a full (non-blinded) Deneb block with
`IsBlinded = false`, JSON negotiated, and a successful conversion and
validation. -/
def wProdEnvDeneb : ProduceEnv :=
  ⟨.ok (.deneb 7, false, 42), false, .ok false, fun _ => .ok [], fun _ => .ok 9, fun _ => true⟩

/-! ## Helper lemmas -/

theorem str_append_assoc (a b c : String) : a ++ b ++ c = a ++ (b ++ c) := by
  cases a with
  | mk da =>
    cases b with
    | mk db =>
      cases c with
      | mk dc => exact congrArg String.mk (List.append_assoc da db dc)

theorem sszTry_none_eq (env : SszEnv) (benv : BroadcastEnv) (q : String) (bflag : Fork → Bool) :
    ∀ l : List Fork, (∀ f ∈ l, env.unmarshal f = none) →
    sszTry env benv q bflag l = (.rejected invalidBlockMsg 400, l) := by
  intro l
  induction l with
  | nil => intro _; rfl
  | cons f rest ih =>
    intro h
    have hf : env.unmarshal f = none := h f (List.mem_cons_self f rest)
    have hrest := ih (fun g hg => h g (List.mem_cons_of_mem f hg))
    simp [sszTry, hf, hrest]

theorem sszTry_first_eq (env : SszEnv) (benv : BroadcastEnv) (q : String) (bflag : Fork → Bool)
    (f : Fork) (v : Nat) :
    ∀ l : List Fork, l.find? (fun g => (env.unmarshal g).isSome) = some f →
    env.unmarshal f = some v →
    (sszTry env benv q bflag l).1 = sszStep env benv q f (bflag f) v := by
  intro l
  induction l with
  | nil => intro h; simp [List.find?] at h
  | cons g rest ih =>
    intro hfind hv
    cases hg : env.unmarshal g with
    | some w =>
      have hf : g = f := by
        simp [List.find?, hg] at hfind
        exact hfind
      subst hf
      rw [hg] at hv
      injection hv with hw
      subst hw
      simp [sszTry, hg]
    | none =>
      have hfind' : rest.find? (fun g => (env.unmarshal g).isSome) = some f := by
        simpa [List.find?, hg] using hfind
      simp [sszTry, hg]
      exact ih hfind' hv

theorem jsonTry_none_eq (env : JsonEnv) (benv : BroadcastEnv) (q : String) (bflag : Fork → Bool) :
    ∀ l : List Fork, (∀ f ∈ l, jsonMatch env f = false) →
    jsonTry env benv q bflag l = (.rejected invalidBlockMsg 400, l) := by
  intro l
  induction l with
  | nil => intro _; rfl
  | cons f rest ih =>
    intro h
    have hf : jsonMatch env f = false := h f (List.mem_cons_self f rest)
    have hrest := ih (fun g hg => h g (List.mem_cons_of_mem f hg))
    cases hu : env.unmarshalStrict f with
    | some v =>
      have hval : env.validateStruct f v = false := by
        unfold jsonMatch at hf
        rw [hu] at hf
        exact hf
      simp [jsonTry, hu, hval, hrest]
    | none => simp [jsonTry, hu, hrest]

theorem jsonTry_first_eq (env : JsonEnv) (benv : BroadcastEnv) (q : String) (bflag : Fork → Bool)
    (f : Fork) (v : Nat) :
    ∀ l : List Fork, l.find? (jsonMatch env) = some f →
    env.unmarshalStrict f = some v →
    jsonTry env benv q bflag l =
      (jsonStep env benv q f (bflag f) v,
       l.takeWhile (fun g => !(jsonMatch env g)) ++ [f]) := by
  intro l
  induction l with
  | nil => intro h; simp [List.find?] at h
  | cons g rest ih =>
    intro hfind hv
    cases hu : env.unmarshalStrict g with
    | some w =>
      cases hval : env.validateStruct g w with
      | true =>
        have hm : jsonMatch env g = true := by simp [jsonMatch, hu, hval]
        have hf : g = f := by
          simp [List.find?, hm] at hfind
          exact hfind
        subst hf
        rw [hu] at hv
        injection hv with hw
        subst hw
        simp [jsonTry, hu, hval, List.takeWhile_cons, hm]
      | false =>
        have hm : jsonMatch env g = false := by simp [jsonMatch, hu, hval]
        have hfind' : rest.find? (jsonMatch env) = some f := by
          simpa [List.find?, hm] using hfind
        have hrest := ih hfind' hv
        simp [jsonTry, hu, hval, hrest, List.takeWhile_cons, hm]
    | none =>
      have hm : jsonMatch env g = false := by simp [jsonMatch, hu]
      have hfind' : rest.find? (jsonMatch env) = some f := by
        simpa [List.find?, hm] using hfind
      have hrest := ih hfind' hv
      simp [jsonTry, hu, hrest, List.takeWhile_cons, hm]

/-! ## Claim theorems -/

/-- C2.  Binary dispatch: the SSZ publish handlers (full and blinded) attempt
the fork schemas in the fixed order Deneb, Capella, Bellatrix, Altair,
Phase0; when no schema decodes the body they respond 400 "Body does not
represent a valid block type" after attempting all five schemas, without
handing anything to the propose RPC; and the first schema whose decode
succeeds wins: when its migration and the broadcast gate succeed, the block
handed to the propose RPC carries exactly that fork's tag. -/
theorem publishSSZ_dispatch_order (envN envM : SszEnv) (benv : BroadcastEnv) (q : String)
    (f : Fork) (v m : Nat)
    (hnone : ∀ g, envN.unmarshal g = none)
    (hfirst : firstSszMatch envM = some f)
    (hv : envM.unmarshal f = some v)
    (hm : envM.migrate f v = .ok m)
    (hgateFull : (validateBroadcast benv q ⟨f, false, m⟩).1 = .ok ())
    (hgateBlind : (validateBroadcast benv q ⟨f, blindedVariant f, m⟩).1 = .ok ()) :
    publishBlockV2SSZ envN benv q = (.rejected invalidBlockMsg 400, publishTryOrder)
    ∧ publishBlindedBlockV2SSZ envN benv q = (.rejected invalidBlockMsg 400, publishTryOrder)
    ∧ (publishBlockV2SSZ envM benv q).1 = .proposed ⟨f, false, m⟩
    ∧ (publishBlindedBlockV2SSZ envM benv q).1 = .proposed ⟨f, blindedVariant f, m⟩ := by
  refine ⟨?_, ?_, ?_, ?_⟩
  · exact sszTry_none_eq envN benv q (fun _ => false) publishTryOrder (fun g _ => hnone g)
  · exact sszTry_none_eq envN benv q blindedVariant publishTryOrder (fun g _ => hnone g)
  · have h := sszTry_first_eq envM benv q (fun _ => false) f v publishTryOrder hfirst hv
    rw [publishBlockV2SSZ, h]
    simp [sszStep, hm, publishStep, hgateFull]
  · have h := sszTry_first_eq envM benv q blindedVariant f v publishTryOrder hfirst hv
    rw [publishBlindedBlockV2SSZ, h]
    simp [sszStep, hm, publishStep, hgateBlind]

/-- Witness for C2: under `wSszEnvNone` no schema decodes and both SSZ
handlers reject with the fixed message after trying all five schemas; under
`wSszEnvCap` only Capella decodes (value 5, migrated to 6) and the proposed
block carries the Capella tag. -/
theorem publishSSZ_dispatch_order_witness :
    publishBlockV2SSZ wSszEnvNone wBenvOk "" = (.rejected invalidBlockMsg 400, publishTryOrder)
    ∧ (publishBlockV2SSZ wSszEnvCap wBenvOk "").1 = .proposed ⟨.capella, false, 6⟩
    ∧ (publishBlindedBlockV2SSZ wSszEnvCap wBenvOk "").1 = .proposed ⟨.capella, true, 6⟩ := by
  have h := publishSSZ_dispatch_order wSszEnvNone wSszEnvCap wBenvOk "" .capella 5 6
    (fun g => by cases g <;> rfl) rfl rfl rfl rfl rfl
  exact ⟨h.1, h.2.2.1, h.2.2.2⟩

/-- C3.  JSON dispatch double gate: a fork schema counts as a match only when
the body strict-decodes against it and the decoded struct passes the
validator (`jsonMatch`); when every fork in the order Deneb, Capella,
Bellatrix, Altair, Phase0 fails one of the two gates, the JSON publish
handlers (full and blinded) respond 400 "Body does not represent a valid
block type" after attempting all five schemas; and otherwise the first
doubly-passing fork's branch handles the request. -/
theorem publishJSON_double_gate (envN envM : JsonEnv) (benv : BroadcastEnv) (q : String)
    (f : Fork) (v : Nat)
    (hnone : ∀ g, jsonMatch envN g = false)
    (hfirst : firstJsonMatch envM = some f)
    (hv : envM.unmarshalStrict f = some v) :
    publishBlockV2 envN benv q = (.rejected invalidBlockMsg 400, publishTryOrder)
    ∧ publishBlindedBlockV2 envN benv q = (.rejected invalidBlockMsg 400, publishTryOrder)
    ∧ (publishBlockV2 envM benv q).1 = jsonStep envM benv q f false v
    ∧ (publishBlindedBlockV2 envM benv q).1 = jsonStep envM benv q f (blindedVariant f) v := by
  refine ⟨?_, ?_, ?_, ?_⟩
  · exact jsonTry_none_eq envN benv q (fun _ => false) publishTryOrder (fun g _ => hnone g)
  · exact jsonTry_none_eq envN benv q blindedVariant publishTryOrder (fun g _ => hnone g)
  · have h := jsonTry_first_eq envM benv q (fun _ => false) f v publishTryOrder hfirst hv
    rw [publishBlockV2, h]
  · have h := jsonTry_first_eq envM benv q blindedVariant f v publishTryOrder hfirst hv
    rw [publishBlindedBlockV2, h]

/-- Witness for C3: under `wJsonEnvNone` nothing matches and the JSON handler
rejects with the fixed message; under `wJsonEnvCap` the Deneb schema parses
but fails validation while Capella passes both gates, so Capella's branch
(here a successful proposal of the converted block) handles the request. -/
theorem publishJSON_double_gate_witness :
    publishBlockV2 wJsonEnvNone wBenvOk "" = (.rejected invalidBlockMsg 400, publishTryOrder)
    ∧ (publishBlockV2 wJsonEnvCap wBenvOk "").1 = .proposed ⟨.capella, false, 6⟩ := by
  have h := publishJSON_double_gate wJsonEnvNone wJsonEnvCap wBenvOk "" .capella 5
    (fun g => by cases g <;> rfl) rfl rfl
  exact ⟨h.1, by rw [h.2.2.1]; rfl⟩

/-- C10.  Conversion failure is terminal in the JSON path: when the first
fork passing both gates is `f` and its `ToGeneric` conversion fails with `e`,
the handler responds 400 with "Could not decode request body into consensus
block: " followed by `e`, and the attempted schemas are exactly the forks up
to and including `f` — none of the remaining (older) fork schemas is
attempted. -/
theorem publishJSON_toGeneric_failure_stops (env : JsonEnv) (benv : BroadcastEnv) (q : String)
    (f : Fork) (v : Nat) (e : String)
    (hfirst : firstJsonMatch env = some f)
    (hv : env.unmarshalStrict f = some v)
    (hconv : env.toGeneric f v = .error e) :
    (publishBlockV2 env benv q).1 =
      .rejected ("Could not decode request body into consensus block: " ++ e) 400
    ∧ (publishBlockV2 env benv q).2 =
      publishTryOrder.takeWhile (fun g => !(jsonMatch env g)) ++ [f] := by
  have h := jsonTry_first_eq env benv q (fun _ => false) f v publishTryOrder hfirst hv
  rw [publishBlockV2, h]
  exact ⟨by simp [jsonStep, hconv], rfl⟩

/-- Witness for C10: under `wJsonEnvErr` Capella is the first double-gate
match, its conversion fails with "bad field", the response is the 400
conversion error, and only Deneb and Capella were attempted. -/
theorem publishJSON_toGeneric_failure_stops_witness :
    (publishBlockV2 wJsonEnvErr wBenvOk "").1 =
      .rejected ("Could not decode request body into consensus block: " ++ "bad field") 400
    ∧ (publishBlockV2 wJsonEnvErr wBenvOk "").2 = [.deneb, .capella] := by
  have h := publishJSON_toGeneric_failure_stops wJsonEnvErr wBenvOk "" .capella 5 "bad field"
    rfl rfl rfl
  exact ⟨h.1, by rw [h.2]; rfl⟩

/-- C4.  Equivocation gate: with `broadcast_validation=consensus_and_equivocation`
and a block whose construction, parent-state fetch and state transition all
succeed, the consensus check runs first (the state fetcher and the state
transition are invoked), and the gate fails — with the equivocation error,
mapped by the handlers to a 400 rejection with no proposal — exactly when the
fork-choice store's highest received block slot equals the block's slot. -/
theorem equivocation_gate (benv : BroadcastEnv) (blk : GenericSignedBeaconBlock)
    (b : SignedROBlock) (st st2 : Nat)
    (hnew : benv.newSignedBeaconBlock blk = .ok b)
    (hstate : benv.state b.parentRoot = .ok st)
    (htrans : benv.executeStateTransition st b = .ok st2) :
    ((validateBroadcast benv broadcastValidationConsensusAndEquivocation blk).2.staterCalled = true
      ∧ (validateBroadcast benv broadcastValidationConsensusAndEquivocation blk).2.transitionCalled = true)
    ∧ (benv.highestReceivedBlockSlot = b.slot →
        (validateBroadcast benv broadcastValidationConsensusAndEquivocation blk).1 =
          .error ("equivocation validation failed: " ++
            ("block for slot " ++ toString b.slot ++ " already exists in fork choice"))
        ∧ publishStep benv broadcastValidationConsensusAndEquivocation blk =
          .rejected ("equivocation validation failed: " ++
            ("block for slot " ++ toString b.slot ++ " already exists in fork choice")) 400)
    ∧ (benv.highestReceivedBlockSlot ≠ b.slot →
        (validateBroadcast benv broadcastValidationConsensusAndEquivocation blk).1 = .ok ()
        ∧ publishStep benv broadcastValidationConsensusAndEquivocation blk = .proposed blk) := by
  have hcons : validateConsensus benv b = (.ok (), ⟨true, true, false⟩) := by
    unfold validateConsensus
    simp only [hstate, htrans]
  have hne : ¬ (broadcastValidationConsensusAndEquivocation = broadcastValidationConsensus) := by
    decide
  have key : validateBroadcast benv broadcastValidationConsensusAndEquivocation blk =
      (match validateEquivocation benv b with
       | .error e => (.error ("equivocation validation failed: " ++ e), ⟨true, true, true⟩)
       | .ok _ => (.ok (), ⟨true, true, true⟩)) := by
    unfold validateBroadcast
    rw [if_neg hne, if_pos rfl]
    simp only [hnew, hcons]
  refine ⟨?_, ?_, ?_⟩
  · rw [key]
    cases hE : validateEquivocation benv b with
    | error e => simp [hE]
    | ok u => simp [hE]
  · intro hS
    have hEq : validateEquivocation benv b =
        .error ("block for slot " ++ toString b.slot ++ " already exists in fork choice") := by
      unfold validateEquivocation
      rw [if_pos hS]
    exact ⟨by rw [key, hEq], by unfold publishStep; rw [key, hEq]⟩
  · intro hS
    have hEq : validateEquivocation benv b = .ok () := by
      unfold validateEquivocation
      rw [if_neg hS]
    exact ⟨by rw [key, hEq], by unfold publishStep; rw [key, hEq]⟩

/-- Witness for C4: under `wBenvEq` the highest received slot (3) equals the
block's slot and the gate returns the equivocation error; under `wBenvOk`
(highest slot 4) the same block passes and is proposed. -/
theorem equivocation_gate_witness :
    (validateBroadcast wBenvEq broadcastValidationConsensusAndEquivocation ⟨.phase0, false, 0⟩).1 =
      .error ("equivocation validation failed: " ++
        ("block for slot " ++ toString (3 : Nat) ++ " already exists in fork choice"))
    ∧ publishStep wBenvOk broadcastValidationConsensusAndEquivocation ⟨.phase0, false, 0⟩ =
      .proposed ⟨.phase0, false, 0⟩ := by
  have h1 := equivocation_gate wBenvEq ⟨.phase0, false, 0⟩ ⟨3, 10⟩ 0 0 rfl rfl rfl
  have h2 := equivocation_gate wBenvOk ⟨.phase0, false, 0⟩ ⟨3, 10⟩ 0 0 rfl rfl rfl
  exact ⟨(h1.2.1 rfl).1, (h2.2.2 (by decide)).2⟩

/-- C5.  Consensus gate error mapping: with `broadcast_validation=consensus`,
a failing parent-state fetch yields a 400 rejection whose message contains
"could not get parent state", a failing state transition yields a 400
rejection whose message contains "could not execute state transition", and
when both succeed the block is handed to the propose RPC. -/
theorem consensus_gate_messages (benv : BroadcastEnv) (blk : GenericSignedBeaconBlock)
    (b : SignedROBlock)
    (hnew : benv.newSignedBeaconBlock blk = .ok b) :
    (∀ e, benv.state b.parentRoot = .error e →
      (validateBroadcast benv broadcastValidationConsensus blk).1 =
        .error ("consensus validation failed: " ++ ("could not get parent state: " ++ e))
      ∧ publishStep benv broadcastValidationConsensus blk =
        .rejected ("consensus validation failed: " ++ ("could not get parent state: " ++ e)) 400
      ∧ ∃ pre post, "consensus validation failed: " ++ ("could not get parent state: " ++ e) =
          pre ++ ("could not get parent state" ++ post))
    ∧ (∀ st e, benv.state b.parentRoot = .ok st → benv.executeStateTransition st b = .error e →
      (validateBroadcast benv broadcastValidationConsensus blk).1 =
        .error ("consensus validation failed: " ++ ("could not execute state transition: " ++ e))
      ∧ publishStep benv broadcastValidationConsensus blk =
        .rejected ("consensus validation failed: " ++
          ("could not execute state transition: " ++ e)) 400
      ∧ ∃ pre post, "consensus validation failed: " ++ ("could not execute state transition: " ++ e) =
          pre ++ ("could not execute state transition" ++ post))
    ∧ (∀ st st2, benv.state b.parentRoot = .ok st → benv.executeStateTransition st b = .ok st2 →
      (validateBroadcast benv broadcastValidationConsensus blk).1 = .ok ()
      ∧ publishStep benv broadcastValidationConsensus blk = .proposed blk) := by
  refine ⟨?_, ?_, ?_⟩
  · intro e he
    have hcons : validateConsensus benv b =
        (.error ("could not get parent state: " ++ e), ⟨true, false, false⟩) := by
      unfold validateConsensus
      rw [he]
    have key : validateBroadcast benv broadcastValidationConsensus blk =
        (.error ("consensus validation failed: " ++ ("could not get parent state: " ++ e)),
         ⟨true, false, false⟩) := by
      unfold validateBroadcast
      rw [if_pos rfl]
      simp only [hnew, hcons]
    refine ⟨by rw [key], by unfold publishStep; rw [key], ?_⟩
    refine ⟨"consensus validation failed: ", ": " ++ e, ?_⟩
    have hlit : "could not get parent state: " = "could not get parent state" ++ ": " := by decide
    rw [hlit, str_append_assoc]
  · intro st e hst he
    have hcons : validateConsensus benv b =
        (.error ("could not execute state transition: " ++ e), ⟨true, true, false⟩) := by
      unfold validateConsensus
      simp only [hst, he]
    have key : validateBroadcast benv broadcastValidationConsensus blk =
        (.error ("consensus validation failed: " ++ ("could not execute state transition: " ++ e)),
         ⟨true, true, false⟩) := by
      unfold validateBroadcast
      rw [if_pos rfl]
      simp only [hnew, hcons]
    refine ⟨by rw [key], by unfold publishStep; rw [key], ?_⟩
    refine ⟨"consensus validation failed: ", ": " ++ e, ?_⟩
    have hlit : "could not execute state transition: " =
        "could not execute state transition" ++ ": " := by decide
    rw [hlit, str_append_assoc]
  · intro st st2 hst htr
    have hcons : validateConsensus benv b = (.ok (), ⟨true, true, false⟩) := by
      unfold validateConsensus
      simp only [hst, htr]
    have key : validateBroadcast benv broadcastValidationConsensus blk =
        (.ok (), ⟨true, true, false⟩) := by
      unfold validateBroadcast
      rw [if_pos rfl]
      simp only [hnew, hcons]
    exact ⟨by rw [key], by unfold publishStep; rw [key]⟩

/-- Witness for C5: a failing parent-state fetch ("no state") and a failing
state transition ("bad block") produce the two wrapped 400 messages, and a
fully succeeding environment leads to a proposal. -/
theorem consensus_gate_messages_witness :
    (validateBroadcast wBenvStateErr broadcastValidationConsensus ⟨.phase0, false, 0⟩).1 =
      .error ("consensus validation failed: " ++ ("could not get parent state: " ++ "no state"))
    ∧ (validateBroadcast wBenvTransErr broadcastValidationConsensus ⟨.phase0, false, 0⟩).1 =
      .error ("consensus validation failed: " ++
        ("could not execute state transition: " ++ "bad block"))
    ∧ publishStep wBenvOk broadcastValidationConsensus ⟨.phase0, false, 0⟩ =
      .proposed ⟨.phase0, false, 0⟩ := by
  have h1 := consensus_gate_messages wBenvStateErr ⟨.phase0, false, 0⟩ ⟨3, 10⟩ rfl
  have h2 := consensus_gate_messages wBenvTransErr ⟨.phase0, false, 0⟩ ⟨3, 10⟩ rfl
  have h3 := consensus_gate_messages wBenvOk ⟨.phase0, false, 0⟩ ⟨3, 10⟩ rfl
  exact ⟨(h1.1 "no state" rfl).1, (h2.2.1 0 "bad block" rfl rfl).1, (h3.2.2 0 0 rfl rfl).2⟩

/-- C6.  Default policy is a no-op: for any `broadcast_validation` value other
than "consensus" and "consensus_and_equivocation" (the absent parameter reads
as the empty string), `validateBroadcast` returns success without invoking
the state fetcher, the state transition or the fork-choice store, and the
block is handed straight to the propose RPC. -/
theorem default_policy_noop (benv : BroadcastEnv) (q : String) (blk : GenericSignedBeaconBlock)
    (h1 : q ≠ broadcastValidationConsensus)
    (h2 : q ≠ broadcastValidationConsensusAndEquivocation) :
    validateBroadcast benv q blk = (.ok (), noCalls)
    ∧ publishStep benv q blk = .proposed blk := by
  have hvb : validateBroadcast benv q blk = (.ok (), noCalls) := by
    unfold validateBroadcast
    rw [if_neg h1, if_neg h2]
  exact ⟨hvb, by unfold publishStep; rw [hvb]⟩

/-- Witness for C6: the empty query value (absent parameter) validates
nothing, calls nothing, and the block is proposed. -/
theorem default_policy_noop_witness :
    validateBroadcast wBenvOk "" ⟨.phase0, false, 0⟩ = (.ok (), noCalls)
    ∧ publishStep wBenvOk "" ⟨.phase0, false, 0⟩ = .proposed ⟨.phase0, false, 0⟩ :=
  default_policy_noop wBenvOk "" ⟨.phase0, false, 0⟩ (by decide) (by decide)

/-- C9.  Optimistic guard on the production path: when `GetBeaconBlock`
returns a Bellatrix-or-later variant, the optimistic-status collaborator is
queried before any response, a `true` report yields the 503 "currently
optimistic" rejection and a failing query yields a 500; when it returns a
Phase0 or Altair variant whose branch writes a response, that response is
returned with the optimistic status never consulted. -/
theorem optimistic_guard (env : ProduceEnv) (blk : ProducedBlock) (ib : Bool) (pv : Nat)
    (hget : env.getBeaconBlock = .ok (blk, ib, pv)) :
    (isPreBellatrix blk = false →
      (produceBlockV3 env).optimisticQueried = true
      ∧ (env.isOptimistic = .ok true →
          (produceBlockV3 env).outcome =
            .errorResp "The node is currently optimistic and cannot serve validators" 503)
      ∧ (∀ e, env.isOptimistic = .error e →
          (produceBlockV3 env).outcome =
            .errorResp ("Could not determine if the node is a optimistic node: " ++ e) 500))
    ∧ (isPreBellatrix blk = true → ∀ out, runBranch env blk pv = some out →
        produceBlockV3 env = ⟨out, some (ib, pv), false⟩) := by
  constructor
  · intro hpre
    have hp : produceBlockV3 env = afterOptimisticGuard env blk ib pv none := by
      unfold produceBlockV3
      simp only [hget, hpre]
      rfl
    refine ⟨?_, ?_, ?_⟩
    · rw [hp]
      unfold afterOptimisticGuard
      cases hO : env.isOptimistic with
      | error e => simp [hO]
      | ok bO =>
        cases bO with
        | true => simp [hO]
        | false => cases hR : runBranch env blk pv <;> simp [hO, hpre, hR]
    · intro hOpt
      rw [hp]
      unfold afterOptimisticGuard
      rw [hOpt]
    · intro e hOpt
      rw [hp]
      unfold afterOptimisticGuard
      rw [hOpt]
  · intro hpre out hR
    unfold produceBlockV3
    simp only [hget]
    rw [if_pos hpre, hR]

/-- Witness for C9: a produced full Bellatrix block with the node optimistic
is rejected 503 with the optimistic status queried, while a produced Phase0
block is returned as version-tagged JSON (with its two headers) without the
optimistic status ever being consulted, even though that collaborator would
fail. -/
theorem optimistic_guard_witness :
    (produceBlockV3 wProdEnvBell).outcome =
      .errorResp "The node is currently optimistic and cannot serve validators" 503
    ∧ (produceBlockV3 wProdEnvBell).optimisticQueried = true
    ∧ produceBlockV3 wProdEnvPhase0 =
      ⟨.jsonResp ⟨"phase0", false, "7", 8⟩, some (false, 7), false⟩ := by
  have h1 := optimistic_guard wProdEnvBell (.bellatrix 3) false 7 rfl
  have h2 := optimistic_guard wProdEnvPhase0 (.phase0 2) false 7 rfl
  exact ⟨(h1.1 rfl).2.1 rfl, (h1.1 rfl).1, h2.2 rfl (.jsonResp ⟨"phase0", false, "7", 8⟩) rfl⟩

/-- C8 (code bug).  The full (non-blinded) Deneb branch of `produceBlockV3`
writes `ExecutionPayloadBlinded: true` in its JSON body: under
`wProdEnvDeneb` the produced block is the non-blinded Deneb variant, the
blinded-status header carries the collaborator's `IsBlinded = false`, and yet
the version-tagged body's flag is `true` — contradicting the claim that the
body's flag is false for a full Deneb block. -/
theorem produce_full_deneb_blinded_flag :
    produceBlockV3 wProdEnvDeneb =
      ⟨.jsonResp ⟨"deneb", true, "42", 9⟩, some (false, 42), true⟩ := by
  rfl

/-- C7 (code bug).  `uint256ToHex` composes `ReverseByteOrder` after the
right-padding `PadTo`, so for "1" it returns 31 zero bytes followed by 1 —
not the 32-byte little-endian encoding (1 followed by 31 zero bytes) the
claim states — and it accepts the negative decimal string "-5" (encoding the
absolute value) instead of failing. -/
theorem uint256ToHex_not_littleEndian :
    uint256ToHex "1" = .ok (List.replicate 31 0 ++ [1])
    ∧ littleEndian32 1 = 1 :: List.replicate 31 0
    ∧ (List.replicate 31 0 ++ [1] : List Nat) ≠ 1 :: List.replicate 31 0
    ∧ uint256ToHex "-5" = .ok (List.replicate 31 0 ++ [5]) := by
  refine ⟨by rfl, by rfl, by decide, by rfl⟩

/-- C1 (code bug).  The wire round trip of the execution payload does not
recover the original value: decoding the valid Bellatrix wire payload
`cWirePayload` (whose `BaseFeePerGas` is the decimal string "1") and encoding
it back yields the hex string of the internal fee bytes rather than "1", so
`encodeWire(decodeWire(v)) ≠ v`. -/
theorem execution_payload_roundtrip_fails :
    toGenericExecutionPayload cWirePayload = .ok cInternalPayload
    ∧ (convertInternalExecutionPayload cInternalPayload).baseFeePerGas =
      "0x0000000000000000000000000000000000000000000000000000000000000001"
    ∧ cWirePayload.baseFeePerGas = "1"
    ∧ convertInternalExecutionPayload cInternalPayload ≠ cWirePayload := by
  refine ⟨by rfl, by rfl, by rfl, by decide⟩

end Prysm
